import Mathlib

/-!
Shallow embedding of the fleet-management console's security core
(src/encryption.py, src/auth.py, src/logger.py, src/services.py,
src/validation.py, src/database.py) and proofs about it.

Modelling conventions:
* Fernet tokens are modelled by `CipherBytes.token keyId nonce payload`:
  a token records the key it was produced under, the random IV drawn for
  it (`nonce`), and the plaintext it protects.  Two encryptions of the
  same plaintext draw distinct IVs, so they yield distinct tokens; the
  model threads an explicit randomness counter (`SysState.rng`) for the
  IVs, bcrypt salts and `secrets.token_hex` draws.  Bytes that are not a
  well-formed token are `CipherBytes.garbage`.
* bcrypt hashes are modelled by `PasswordHash`: a salted hash that
  `verify_password` checks by comparing the underlying password, which is
  exactly the contract of `bcrypt.hashpw`/`bcrypt.checkpw`.
* The SQLite tables become Lean lists of row structures inside `SysState`;
  `AUTOINCREMENT` ids become explicit `next…Id` counters; the `UNIQUE`
  constraint on `users.username` becomes an explicit ciphertext-equality
  check on insert.
* Console output is modelled by the `Msg` inductive (one constructor per
  distinct `print` text of the login flow), so that equality of outputs is
  equality of the information they carry, independent of float formatting.
-/

/-- Bytes handed to the Fernet layer: either a well-formed token
(produced under some key, with the random IV drawn for it) or corrupted
bytes that fail Fernet's HMAC check. -/
inductive CipherBytes where
  | token (keyId : Nat) (nonce : Nat) (payload : String)
  | garbage (bs : List Nat)
deriving DecidableEq, Repr

/-- Dynamically-typed Python values, as far as the encryption layer's
`isinstance` checks can observe them. -/
inductive PyVal where
  | str (s : String)
  | bytes (b : CipherBytes)
  | int (n : Int)
  | pynone
deriving DecidableEq, Repr

/-- `EncryptionManager` of src/encryption.py: owns one Fernet key,
identified by `keyId`. -/
structure EncryptionManager where
  keyId : Nat
deriving DecidableEq, Repr

/-- `EncryptionManager.encrypt` (src/encryption.py lines 26-37): encrypt a
string into a Fernet token under the manager's key; `nonce` is the random
IV Fernet draws for this call. -/
def EncryptionManager.encrypt (m : EncryptionManager) (nonce : Nat) (s : String) : CipherBytes :=
  CipherBytes.token m.keyId nonce s

/-- Core of `EncryptionManager.decrypt` (src/encryption.py lines 49-54):
`Fernet.decrypt` recovers the payload of a token made under the same key;
on a token under a different key, or on corrupted bytes, it raises
`InvalidToken`, which the method catches, returning the empty string. -/
def EncryptionManager.decrypt (m : EncryptionManager) (c : CipherBytes) : String :=
  match c with
  | CipherBytes.token k _ s => if k = m.keyId then s else ""
  | CipherBytes.garbage _ => ""

/-- Whether `b` is a valid ciphertext under `m`'s key: a well-formed token
produced under that very key. -/
def EncryptionManager.isValidToken (m : EncryptionManager) (b : CipherBytes) : Bool :=
  match b with
  | CipherBytes.token k _ _ => k == m.keyId
  | CipherBytes.garbage _ => false

/-- `EncryptionManager.decrypt` as called from Python (src/encryption.py
lines 39-54), including the eager `isinstance(encrypted_data, bytes)`
check that raises `TypeError`, while `InvalidToken` is caught and turned
into the empty string. -/
def EncryptionManager.decryptPy (m : EncryptionManager) (v : PyVal) : Except String String :=
  match v with
  | PyVal.bytes b => Except.ok (m.decrypt b)
  | _ => Except.error "TypeError"

/-- `EncryptionManager.encrypt` as called from Python (src/encryption.py
lines 26-37), including the eager `isinstance(data, str)` check. -/
def EncryptionManager.encryptPy (m : EncryptionManager) (nonce : Nat) (v : PyVal) :
    Except String CipherBytes :=
  match v with
  | PyVal.str s => Except.ok (m.encrypt nonce s)
  | _ => Except.error "TypeError"

/-- bcrypt password hash (src/auth.py lines 12-17): `hashpw` with a fresh
random salt. The model records the salt draw and the hashed password;
`checkpw` verifies by re-hashing, i.e. by comparing the underlying
password. -/
structure PasswordHash where
  pw : String
  salt : Nat
deriving DecidableEq, Repr

/-- `hash_password` (src/auth.py lines 12-17); `salt` is the random
`bcrypt.gensalt()` draw. -/
def hash_password (salt : Nat) (password : String) : PasswordHash :=
  ⟨password, salt⟩

/-- `verify_password` (src/auth.py lines 19-23): `bcrypt.checkpw`. -/
def verify_password (plain_password : String) (password_hash : PasswordHash) : Bool :=
  plain_password == password_hash.pw

/-- Role strings of src/config.py lines 14-16. -/
def ROLE_SUPER_ADMIN : String := "Super Administrator"

/-- Role string of src/config.py line 15. -/
def ROLE_SYSTEM_ADMIN : String := "System Administrator"

/-- Role string of src/config.py line 16. -/
def ROLE_SERVICE_ENGINEER : String := "Service Engineer"

/-- A row of the `users` table (src/database.py lines 24-34). -/
structure UserRow where
  id : Nat
  username : CipherBytes
  password_hash : PasswordHash
  role : String
  first_name : CipherBytes
  last_name : CipherBytes
  reg_date : String
deriving DecidableEq, Repr

/-- A row of the `logs` table (src/database.py lines 136-147). -/
structure LogRow where
  id : Nat
  date : String
  time : String
  username : CipherBytes
  activity : CipherBytes
  info : CipherBytes
  suspicious : Bool
  is_read : Bool
deriving DecidableEq, Repr

/-- A row of the `restore_codes` table (src/database.py lines 151-160). -/
structure CodeRow where
  id : Nat
  code : CipherBytes
  backup_filename : String
  sysadmin_username : String
  is_used : Bool
  generated_at : String
deriving DecidableEq, Repr

/-- A row of the `travellers` table (src/database.py lines 94-110),
viewed as a map from column name to stored (encrypted) value. -/
structure TravellerRow where
  id : Nat
  cols : String → CipherBytes

/-- A row of the `scooters` table (src/database.py lines 113-131), viewed
as a map from column name to stored (encrypted) value: `update_scooter`
builds its UPDATE dynamically from column names. -/
structure ScooterRow where
  id : Nat
  cols : String → CipherBytes

/-- Observable side effects of the restore flow whose relative order
matters: the `UPDATE restore_codes SET is_used = 1` commit and the
archive extraction over the live store. -/
inductive Event where
  | markCodeUsed (id : Nat)
  | extractArchive (filename : String)
deriving DecidableEq, Repr

/-- The persisted store plus the process-ambient inputs: the loaded
Fernet key, a counter supplying the fresh randomness consumed by Fernet
IVs and bcrypt salts, the SQLite tables, the backup directory listing,
the event trace, the `AUTOINCREMENT` counters and the wall clock. -/
structure SysState where
  emKey : Nat
  rng : Nat
  users : List UserRow
  travellers : List TravellerRow
  scooters : List ScooterRow
  logs : List LogRow
  restore_codes : List CodeRow
  backups : List String
  trace : List Event
  nextUserId : Nat
  nextLogId : Nat
  nextCodeId : Nat
  curDate : String
  curTime : String
  today : Nat × Nat × Nat

/-- The process-wide `encryption_manager` (src/services.py line 15),
holding the key loaded at startup. -/
def SysState.em (st : SysState) : EncryptionManager :=
  ⟨st.emKey⟩

/-- One encryption call: draws the next fresh Fernet IV. -/
def SysState.encryptFresh (st : SysState) (s : String) : CipherBytes × SysState :=
  (st.em.encrypt st.rng s, { st with rng := st.rng + 1 })

/-- `SecureLogger.log` (src/logger.py lines 11-33): encrypt the three
text fields individually and append a row with current date/time, the
suspicious flag, and read flag 0. -/
def secure_logger_log (st : SysState) (username activity_desc info : String)
    (is_suspicious : Bool) : SysState :=
  let (cu, st1) := st.encryptFresh username
  let (ca, st2) := st1.encryptFresh activity_desc
  let (ci, st3) := st2.encryptFresh info
  { st3 with
    logs := st3.logs ++
      [⟨st3.nextLogId, st3.curDate, st3.curTime, cu, ca, ci, is_suspicious, false⟩],
    nextLogId := st3.nextLogId + 1 }

/-- The in-memory actor produced by a successful login
(src/models.py `User`). -/
structure User where
  id : Nat
  username : String
  role : String
  first_name : String
  last_name : String
  reg_date : String
deriving DecidableEq, Repr

/-- The `requires_role` decorator (src/services.py lines 20-31): if there
is no current user or the user's role is not in `allowed_roles`, print
Access Denied, record a suspicious audit entry naming the wrapped
function (only when a user is present), and return `None` without calling
the wrapped function. -/
def requires_role {α : Type} (allowed_roles : List String) (funcName : String)
    (func : User → SysState → α × SysState)
    (current_user : Option User) (st : SysState) : Option α × SysState :=
  match current_user with
  | none => (none, st)
  | some u =>
    if u.role ∈ allowed_roles then
      let (r, st') := func u st
      (some r, st')
    else
      (none, secure_logger_log st u.username "Authorization failed"
        ("Attempted to use " ++ funcName) true)

/-- Python's `str.lower()` on the character list of a string (the inputs
the system compares are ASCII; the model lowercases characterwise). -/
def pyLower (s : String) : String :=
  ⟨s.data.map Char.toLower⟩

/-- Split a character list at every occurrence of `sep`
(`str.split("-")`, `str.split(".")` for one-character separators). -/
def splitOnChar (sep : Char) : List Char → List (List Char)
  | [] => [[]]
  | c :: rest =>
    let r := splitOnChar sep rest
    if c == sep then [] :: r
    else
      match r with
      | [] => [[c]]
      | h :: t => (c :: h) :: t

/-- The numeric value of a digit run (most significant first). -/
def natOfDigits : List Char → Nat → Nat
  | [], acc => acc
  | c :: rest, acc => natOfDigits rest (acc * 10 + (c.toNat - 48))

/-- `_is_safe_string` (src/validation.py lines 6-13): rejects strings
holding a null byte. -/
def _is_safe_string (s : String) : Bool :=
  !(s.data.contains (Char.ofNat 0))

/-- Characters the username rule allows after the first one
(src/validation.py line 23): letters, digits, underscore, apostrophe,
period. -/
def isUsernameRestChar (c : Char) : Bool :=
  c.isAlpha || c.isDigit || c == '_' || c == Char.ofNat 39 || c == '.'

/-- `is_valid_username` (src/validation.py lines 15-24): 8-10 characters,
first a letter or underscore, rest from the allowed set. (The regex-anchor
corner case in which `$` also matches just before one trailing newline is
not modelled.) -/
def is_valid_username (username : String) : Bool :=
  _is_safe_string username &&
  (match username.toList with
    | [] => false
    | c :: rest =>
      (c.isAlpha || c == '_') && rest.all isUsernameRestChar &&
        decide (7 ≤ rest.length) && decide (rest.length ≤ 9))

/-- The special-character class of the password rule
(src/validation.py line 41). -/
def passwordSpecialChars : String :=
  "~!@#$%^&*()_+=\x60\x7b\x7d[]:;\x27<>,.?/|\\-"

/-- `is_valid_password` (src/validation.py lines 26-45): 12-30
characters with at least one lowercase letter, one uppercase letter, one
digit and one special character. (The regex corner cases around embedded
newlines, which `.` and the lookaheads do not cross, are not modelled.) -/
def is_valid_password (password : String) : Bool :=
  _is_safe_string password &&
  decide (12 ≤ password.length) && decide (password.length ≤ 30) &&
  password.data.any Char.isLower &&
  password.data.any Char.isUpper &&
  password.data.any Char.isDigit &&
  password.data.any (fun c => passwordSpecialChars.data.contains c)

/-- `is_valid_scooter_serial` (src/validation.py lines 65-69): 10 to 17
alphanumeric characters. -/
def is_valid_scooter_serial (serial : String) : Bool :=
  _is_safe_string serial &&
  decide (10 ≤ serial.length) && decide (serial.length ≤ 17) &&
  serial.toList.all Char.isAlphanum

/-- `is_valid_location_coordinate` (src/validation.py lines 72-76): an
optional sign, one or more digits, a point, and at least five digits. -/
def is_valid_location_coordinate (coord : String) : Bool :=
  _is_safe_string coord &&
  (match splitOnChar '.' coord.data with
    | [ipc, fp] =>
      let digits := match ipc with
        | c :: rest => if c == '+' || c == '-' then rest else ipc
        | [] => []
      !digits.isEmpty && digits.all Char.isDigit &&
        decide (5 ≤ fp.length) && fp.all Char.isDigit
    | _ => false)

/-- Gregorian leap-year rule, as applied by `datetime.strptime` when
checking the day of month. -/
def isLeapYear (y : Nat) : Bool :=
  (y % 4 == 0 && y % 100 != 0) || y % 400 == 0

/-- Days in a month, as `datetime.strptime` validates them. -/
def daysInMonth (y m : Nat) : Nat :=
  if m == 2 then (if isLeapYear y then 29 else 28)
  else if m == 4 || m == 6 || m == 9 || m == 11 then 30
  else 31

/-- Lexicographic order on (year, month, day) triples: the date
comparison `date_obj > now().date()` of src/validation.py line 99. -/
def dateLe (a b : Nat × Nat × Nat) : Bool :=
  decide (a.1 < b.1) ||
  (a.1 == b.1 &&
    (decide (a.2.1 < b.2.1) || (a.2.1 == b.2.1 && decide (a.2.2 ≤ b.2.2))))

/-- One numeric field of the `%Y-%m-%d` format: a nonempty digit run of
bounded length. -/
def parseNatField (s : List Char) (maxLen : Nat) : Option Nat :=
  if !s.isEmpty && decide (s.length ≤ maxLen) && s.all Char.isDigit then
    some (natOfDigits s 0)
  else none

/-- `is_valid_iso_date` (src/validation.py lines 94-103): the string
parses under `%Y-%m-%d` (year of 1-4 digits, month 1-12 of 1-2 digits,
day of 1-2 digits valid for that month and year) and is not after today.
`today` models the ambient `datetime.now().date()`. -/
def is_valid_iso_date (today : Nat × Nat × Nat) (date_string : String) : Bool :=
  _is_safe_string date_string &&
  (match splitOnChar '-' date_string.data with
    | [ys, ms, ds] =>
      match parseNatField ys 4, parseNatField ms 2, parseNatField ds 2 with
      | some y, some m, some d =>
        decide (1 ≤ m) && decide (m ≤ 12) && decide (1 ≤ d) &&
          decide (d ≤ daysInMonth y m) && dateLe (y, m, d) today
      | _, _, _ => false
    | _ => false)

/-- The username match used by the login scan and by
`_find_user_by_username`: the stored ciphertext decrypts, and compares
case-insensitively, to the input. -/
def usernameMatches (st : SysState) (username : String) (r : UserRow) : Bool :=
  pyLower (st.em.decrypt r.username) == pyLower username

/-- `_find_user_by_username` (src/services.py lines 34-44): linear
decrypt-and-compare over all user rows; `find?` returns the first
match, as the Python loop does. -/
def _find_user_by_username (st : SysState) (username : String) : Option UserRow :=
  st.users.find? (usernameMatches st username)

/-- The `INSERT INTO users` of `add_new_user` (src/services.py
lines 85-91) under the `username BLOB UNIQUE` constraint
(src/database.py line 27): the insert raises `IntegrityError` exactly
when some stored row carries a byte-identical username ciphertext. -/
def dbInsertUser (st : SysState) (username_c : CipherBytes) (ph : PasswordHash)
    (role : String) (fn_c ln_c : CipherBytes) : Option SysState :=
  if st.users.any (fun r => r.username == username_c) then none
  else some { st with
    users := st.users ++ [⟨st.nextUserId, username_c, ph, role, fn_c, ln_c, st.curDate⟩],
    nextUserId := st.nextUserId + 1 }

/-- Body of `add_new_user` (src/services.py lines 55-105), inside its
`requires_role` wrapper: validate, encrypt username and names, hash the
password, insert (catching `IntegrityError` as the duplicate-username
failure), and log the action. -/
def add_new_user_inner (username password role first_name last_name : String)
    (u : User) (st : SysState) : Bool × SysState :=
  if !is_valid_username username then (false, st)
  else if !is_valid_password password then (false, st)
  else if !(role == ROLE_SERVICE_ENGINEER || role == ROLE_SYSTEM_ADMIN) then (false, st)
  else if role == ROLE_SUPER_ADMIN then (false, st)
  else if u.role == ROLE_SYSTEM_ADMIN && role == ROLE_SYSTEM_ADMIN then (false, st)
  else
    let (uc, st1) := st.encryptFresh username
    let (fc, st2) := st1.encryptFresh first_name
    let (lc, st3) := st2.encryptFresh last_name
    let ph := hash_password st3.rng password
    let st4 := { st3 with rng := st3.rng + 1 }
    match dbInsertUser st4 uc ph role fc lc with
    | none => (false, st4)
    | some st5 =>
      (true, secure_logger_log st5 u.username "Added new user"
        ("Username: " ++ username ++ ", Role: " ++ role) false)

/-- `add_new_user` (src/services.py lines 55-105) with its
`requires_role([ROLE_SUPER_ADMIN, ROLE_SYSTEM_ADMIN])` wrapper. -/
def add_new_user (current_user : Option User)
    (username password role first_name last_name : String)
    (st : SysState) : Option Bool × SysState :=
  requires_role [ROLE_SUPER_ADMIN, ROLE_SYSTEM_ADMIN] "add_new_user"
    (add_new_user_inner username password role first_name last_name) current_user st

/-- Body of `delete_traveller` (src/services.py lines 744-760): DELETE by
id, report when no row matched, otherwise commit and log suspicious. -/
def delete_traveller_inner (traveller_id : Nat) (u : User) (st : SysState) :
    Bool × SysState :=
  if st.travellers.all (fun t => t.id != traveller_id) then (false, st)
  else
    let st1 := { st with travellers := st.travellers.filter (fun t => t.id != traveller_id) }
    (true, secure_logger_log st1 u.username "Deleted traveller"
      ("Traveller ID: " ++ toString traveller_id) true)

/-- `delete_traveller` (src/services.py lines 744-760) with its
`requires_role([ROLE_SUPER_ADMIN, ROLE_SYSTEM_ADMIN])` wrapper. -/
def delete_traveller (current_user : Option User) (traveller_id : Nat)
    (st : SysState) : Option Bool × SysState :=
  requires_role [ROLE_SUPER_ADMIN, ROLE_SYSTEM_ADMIN] "delete_traveller"
    (delete_traveller_inner traveller_id) current_user st

/-- Body of `delete_user` (src/services.py lines 164-206): block
self-deletion, find the target by decrypted username, enforce the role
hierarchy (System Admins may delete only Service Engineers, logged
suspicious on violation; Super Admins never delete Super Admins), then
DELETE by username ciphertext and log the deletion suspicious. -/
def delete_user_inner (target_username : String) (u : User) (st : SysState) :
    Bool × SysState :=
  if pyLower u.username == pyLower target_username then (false, st)
  else
    match _find_user_by_username st target_username with
    | none => (false, st)
    | some target =>
      if u.role == ROLE_SYSTEM_ADMIN && target.role != ROLE_SERVICE_ENGINEER then
        (false, secure_logger_log st u.username "Authorization failed"
          ("Attempted to delete user " ++ target_username ++ " (" ++ target.role ++ ")") true)
      else if u.role == ROLE_SUPER_ADMIN && target.role == ROLE_SUPER_ADMIN then
        (false, st)
      else
        let remaining := st.users.filter (fun r => r.username != target.username)
        if remaining.length == st.users.length then (false, st)
        else
          (true, secure_logger_log { st with users := remaining } u.username
            "Deleted user" ("Target Username: " ++ target_username) true)

/-- `delete_user` (src/services.py lines 164-206) with its
`requires_role([ROLE_SUPER_ADMIN, ROLE_SYSTEM_ADMIN])` wrapper. -/
def delete_user (current_user : Option User) (target_username : String)
    (st : SysState) : Option Bool × SysState :=
  requires_role [ROLE_SUPER_ADMIN, ROLE_SYSTEM_ADMIN] "delete_user"
    (delete_user_inner target_username) current_user st

/-- Body of `generate_restore_code` (src/services.py lines 785-808),
inside its `requires_role([ROLE_SUPER_ADMIN])` wrapper: `code` is the
random `secrets.token_hex(16)` draw; it is stored encrypted, bound to the
target System Administrator's username and the backup filename, unused,
then logged and returned. -/
def generate_restore_code_inner (target_system_admin_username backup_filename code : String)
    (u : User) (st : SysState) : String × SysState :=
  let (cc, st1) := st.encryptFresh code
  let st2 := { st1 with
    restore_codes := st1.restore_codes ++
      [⟨st1.nextCodeId, cc, backup_filename, target_system_admin_username, false, st1.curDate⟩],
    nextCodeId := st1.nextCodeId + 1 }
  (code, secure_logger_log st2 u.username "Generated restore code"
    ("For user " ++ target_system_admin_username ++ ", file " ++ backup_filename) false)

/-- `generate_restore_code` (src/services.py lines 785-808) with its
`requires_role([ROLE_SUPER_ADMIN])` wrapper. -/
def generate_restore_code (current_user : Option User)
    (target_system_admin_username backup_filename code : String)
    (st : SysState) : Option String × SysState :=
  requires_role [ROLE_SUPER_ADMIN] "generate_restore_code"
    (generate_restore_code_inner target_system_admin_username backup_filename code)
    current_user st

/-- The `SELECT * FROM restore_codes WHERE system_admin_username = ? AND
backup_filename = ? AND is_used = 0` row predicate of
src/services.py lines 870-873. -/
def codeRowMatches (u : User) (backup_filename : String) (r : CodeRow) : Bool :=
  r.sysadmin_username == u.username && r.backup_filename == backup_filename && !r.is_used

/-- The shared tail of `restore_from_backup` (src/services.py
lines 887-896): extract the database file from the archive over the live
store and log the restore as suspicious. -/
def extractAndLog (backup_filename : String) (u : User) (st : SysState) :
    Bool × SysState :=
  let st1 := { st with trace := st.trace ++ [Event.extractArchive backup_filename] }
  (true, secure_logger_log st1 u.username "Restored from backup"
    ("File: " ++ backup_filename) true)

/-- Body of `restore_from_backup` (src/services.py lines 854-899), inside
its wrapper: check the backup file exists; a System Administrator must
present a code whose stored row matches their username, the filename and
is unused, and whose decryption equals the presented code — otherwise the
attempt is logged suspicious and nothing is extracted; on match the row
is marked used and committed before the archive is extracted. A Super
Administrator extracts directly. -/
def restore_from_backup_inner (backup_filename : String) (restore_code : Option String)
    (u : User) (st : SysState) : Bool × SysState :=
  if !(st.backups.contains backup_filename) then (false, st)
  else if u.role == ROLE_SYSTEM_ADMIN then
    match restore_code with
    | none => (false, st)
    | some rc =>
      match st.restore_codes.find? (codeRowMatches u backup_filename) with
      | none =>
        (false, secure_logger_log st u.username "Failed backup restore"
          ("Invalid code used for " ++ backup_filename) true)
      | some row =>
        if st.em.decrypt row.code != rc then
          (false, secure_logger_log st u.username "Failed backup restore"
            ("Invalid code used for " ++ backup_filename) true)
        else
          let st1 := { st with
            restore_codes := st.restore_codes.map
              (fun r => if r.id == row.id then { r with is_used := true } else r),
            trace := st.trace ++ [Event.markCodeUsed row.id] }
          extractAndLog backup_filename u st1
  else extractAndLog backup_filename u st

/-- `restore_from_backup` (src/services.py lines 854-899) with its
`requires_role([ROLE_SUPER_ADMIN, ROLE_SYSTEM_ADMIN])` wrapper. -/
def restore_from_backup (current_user : Option User) (backup_filename : String)
    (restore_code : Option String) (st : SysState) : Option Bool × SysState :=
  requires_role [ROLE_SUPER_ADMIN, ROLE_SYSTEM_ADMIN] "restore_from_backup"
    (restore_from_backup_inner backup_filename restore_code) current_user st

/-- The fields a Service Engineer may edit on a scooter
(src/services.py line 439). -/
def service_engineer_fields : List String :=
  ["state_of_charge", "target_range_soc_min", "target_range_soc_max",
   "location_lat", "location_lon", "out_of_service_status", "mileage",
   "last_maintenance_date"]

/-- The fields an administrator may edit on a scooter
(src/services.py line 440). -/
def admin_fields : List String :=
  service_engineer_fields ++
    ["brand", "model", "serial_number", "top_speed", "battery_capacity"]

/-- The per-field value checks of the `update_scooter` filter loop
(src/services.py lines 450-458). -/
def validateScooterField (today : Nat × Nat × Nat) (k v : String) : Bool :=
  if k == "location_lat" || k == "location_lon" then is_valid_location_coordinate v
  else if k == "last_maintenance_date" then is_valid_iso_date today v
  else if k == "serial_number" then is_valid_scooter_serial v
  else true

/-- The filter loop of `update_scooter` (src/services.py lines 448-461):
keep the editable fields in order, drop the rest with only a console
warning, and abort the whole call (`none`) when an editable field carries
an invalid value. -/
def filterScooterUpdates (today : Nat × Nat × Nat) (editable : List String)
    (updates : List (String × String)) : Option (List (String × String)) :=
  match updates with
  | [] => some []
  | (k, v) :: rest =>
    if editable.contains k then
      if validateScooterField today k v then
        (filterScooterUpdates today editable rest).map (fun l => (k, v) :: l)
      else none
    else filterScooterUpdates today editable rest

/-- Encrypt the allowed updates in order, drawing a fresh IV per value
(src/services.py line 467). -/
def encryptUpdates (st : SysState) : List (String × String) →
    List (String × CipherBytes) × SysState
  | [] => ([], st)
  | (k, v) :: rest =>
    let (c, st1) := st.encryptFresh v
    let (cs, st2) := encryptUpdates st1 rest
    ((k, c) :: cs, st2)

/-- Set one column of a row map. -/
def setCol (cols : String → CipherBytes) (k : String) (v : CipherBytes) :
    String → CipherBytes :=
  fun q => if q == k then v else cols q

/-- Apply a SET clause, column by column. -/
def applyCols (cols : String → CipherBytes) : List (String × CipherBytes) →
    (String → CipherBytes)
  | [] => cols
  | (k, c) :: rest => applyCols (setCol cols k c) rest

/-- Body of `update_scooter` (src/services.py lines 435-492): filter the
updates by the role's editable fields, fail with no mutation when nothing
allowed remains, encrypt the kept values, run the UPDATE by scooter id
(failing when no row matches), and log the successful update
non-suspicious. -/
def update_scooter_inner (scooter_id : Nat) (updates : List (String × String))
    (u : User) (st : SysState) : Bool × SysState :=
  let editable :=
    if u.role == ROLE_SERVICE_ENGINEER then service_engineer_fields else admin_fields
  match filterScooterUpdates st.today editable updates with
  | none => (false, st)
  | some allowed =>
    if allowed.isEmpty then (false, st)
    else
      let (enc, st1) := encryptUpdates st allowed
      if st1.scooters.all (fun r => r.id != scooter_id) then (false, st1)
      else
        let st2 := { st1 with
          scooters := st1.scooters.map
            (fun r => if r.id == scooter_id then ⟨r.id, applyCols r.cols enc⟩ else r) }
        (true, secure_logger_log st2 u.username "Updated scooter"
          ("ID: " ++ toString scooter_id) false)

/-- `update_scooter` (src/services.py lines 435-492) with its
`requires_role` wrapper admitting all three roles. -/
def update_scooter (current_user : Option User) (scooter_id : Nat)
    (updates : List (String × String)) (st : SysState) : Option Bool × SysState :=
  requires_role [ROLE_SUPER_ADMIN, ROLE_SYSTEM_ADMIN, ROLE_SERVICE_ENGINEER]
    "update_scooter" (update_scooter_inner scooter_id updates) current_user st

/-- The `ORDER BY date DESC, time DESC` comparison of
src/logger.py line 41: `a` sorts no later than `b` when its (date, time)
pair is lexicographically at least `b`'s. -/
def newerEq (a b : LogRow) : Bool :=
  decide (b.date < a.date) || (a.date == b.date && !(decide (a.time < b.time)))

/-- Insert one row into a list already sorted newest-first. -/
def insertByNewer (r : LogRow) : List LogRow → List LogRow
  | [] => [r]
  | x :: xs => if newerEq r x then r :: x :: xs else x :: insertByNewer r xs

/-- Sort log rows newest-first (the model of the SQL ORDER BY). -/
def sortLogsDesc : List LogRow → List LogRow
  | [] => []
  | x :: xs => insertByNewer x (sortLogsDesc xs)

/-- One decrypted log entry as returned to the caller of
`SecureLogger.get_logs` (src/logger.py lines 47-55). -/
structure LogView where
  id : Nat
  date : String
  time : String
  username : String
  activity_description : String
  additional_info : String
  is_suspicious : String
deriving DecidableEq, Repr

/-- Decrypt one fetched log row (src/logger.py lines 47-55). -/
def decryptLogRow (st : SysState) (r : LogRow) : LogView :=
  ⟨r.id, r.date, r.time, st.em.decrypt r.username, st.em.decrypt r.activity,
    st.em.decrypt r.info, if r.suspicious then "Yes" else "No"⟩

/-- `SecureLogger.mark_logs_as_read` (src/logger.py lines 67-78): set
`is_read = 1` on every row whose id is in the list — with no filter on
the suspicious flag. -/
def mark_logs_as_read (st : SysState) (log_ids : List Nat) : SysState :=
  if log_ids.isEmpty then st
  else { st with
    logs := st.logs.map
      (fun r => if log_ids.contains r.id then { r with is_read := true } else r) }

/-- `SecureLogger.get_logs` (src/logger.py lines 35-65): fetch the most
recent `limit` rows newest-first, decrypt each, then mark every fetched
id as read. -/
def get_logs (st : SysState) (limit : Nat) : List LogView × SysState :=
  let rows := (sortLogsDesc st.logs).take limit
  (rows.map (decryptLogRow st), mark_logs_as_read st (rows.map (fun r => r.id)))

/-- `SecureLogger.check_unread_alerts` (src/logger.py lines 80-89) and
the count inside `check_for_unread_suspicious_logs` (src/services.py
lines 902-914): the number of suspicious, unread rows. -/
def check_unread_alerts (st : SysState) : Nat :=
  (st.logs.filter (fun r => r.suspicious && !r.is_read)).length

/-- Modelled from the spec: `config.MAX_LOGIN_ATTEMPTS` and
`config.LOCKOUT_TIME_SECONDS` are read by src/auth.py (lines 36-39, 97-98)
but are defined nowhere in src/config.py; the spec names them as the
configuration constants MAX_LOGIN_ATTEMPTS and LOCKOUT_SECONDS of the
lockout rule, so they are modelled as parameters of the login flow. -/
structure AuthConfig where
  MAX_LOGIN_ATTEMPTS : Nat
  LOCKOUT_TIME_SECONDS : Nat
deriving DecidableEq, Repr

/-- The in-memory `login_attempts` dictionary of src/auth.py line 10,
keyed by lowercased username: (attempt count, last attempt time). -/
abbrev AttemptMap := List (String × Nat × Nat)

/-- Dictionary read `login_attempts.get(key)`. -/
def lookupAttempts (m : AttemptMap) (k : String) : Option (Nat × Nat) :=
  (m.find? (fun e => e.1 == k)).map (fun e => e.2)

/-- Dictionary delete `del login_attempts[key]`. -/
def eraseAttempts (m : AttemptMap) (k : String) : AttemptMap :=
  m.filter (fun e => e.1 != k)

/-- Dictionary write `login_attempts[key] = v`. -/
def setAttempts (m : AttemptMap) (k : String) (v : Nat × Nat) : AttemptMap :=
  (k, v.1, v.2) :: eraseAttempts m k

/-- The distinct console messages of the login flow (src/auth.py), one
constructor per `print` with the data it interpolates. -/
inductive Msg where
  | lockedTryAgain (remainingSeconds : Nat)
  | invalidCredentials
  | accountLocked (lockoutSeconds : Nat)
  | welcome (name : String)
  | securityAlert (count : Nat)
deriving DecidableEq, Repr

/-- Everything one `login()` call produces: the returned user (or
`None`), the updated attempt map, the updated store, the console output,
and whether the password prompt was reached. -/
structure LoginResult where
  user : Option User
  attempts : AttemptMap
  st : SysState
  printed : List Msg
  prompted : Bool

/-- Build the returned `models.User` from a matched row
(src/auth.py lines 68-75). -/
def decryptUserRow (st : SysState) (r : UserRow) : User :=
  { id := r.id
    username := st.em.decrypt r.username
    role := r.role
    first_name := st.em.decrypt r.first_name
    last_name := st.em.decrypt r.last_name
    reg_date := r.reg_date }

/-- The failed-login tail of `login` (src/auth.py lines 86-100): print
the unified failure message, log the true reason suspicious, bump the
attempt counter with the current time, and print the lockout notice when
the new count reaches the threshold. -/
def loginFail (cfg : AuthConfig) (now : Nat) (username : String)
    (attempts : AttemptMap) (st : SysState) (user_found : Bool) : LoginResult :=
  let log_message := if user_found then "Wrong password" else "Username not found"
  let st1 := secure_logger_log st username "Unsuccessful login" log_message true
  let a := ((lookupAttempts attempts (pyLower username)).getD (0, 0)).1
  let attempts1 := setAttempts attempts (pyLower username) (a + 1, now)
  { user := none
    attempts := attempts1
    st := st1
    printed := [Msg.invalidCredentials] ++
      (if cfg.MAX_LOGIN_ATTEMPTS ≤ a + 1 then [Msg.accountLocked cfg.LOCKOUT_TIME_SECONDS]
       else [])
    prompted := true }

/-- The credential check of `login` (src/auth.py lines 46-98), after the
lockout gate: scan all user rows for the first whose decrypted username
matches case-insensitively; verify the password on a match; on success
clear the attempt record, greet, and (for administrators) surface the
unread-suspicious-log alert; otherwise fall into the failure tail. -/
def loginBody (cfg : AuthConfig) (now : Nat) (username password : String)
    (attempts : AttemptMap) (st : SysState) : LoginResult :=
  match st.users.find? (usernameMatches st username) with
  | some r =>
    if verify_password password r.password_hash then
      let u := decryptUserRow st r
      { user := some u
        attempts := eraseAttempts attempts (pyLower username)
        st := st
        printed := [Msg.welcome u.username] ++
          (if (u.role == ROLE_SUPER_ADMIN || u.role == ROLE_SYSTEM_ADMIN) &&
              decide (0 < check_unread_alerts st) then
            [Msg.securityAlert (check_unread_alerts st)]
           else [])
        prompted := true }
    else loginFail cfg now username attempts st true
  | none => loginFail cfg now username attempts st false

/-- `login` (src/auth.py lines 26-100): the brute-force gate — with a
tracked record at or past the threshold and inside the lockout window,
reject immediately without prompting for a password; past the window,
delete the record and proceed; otherwise proceed to the credential
check. -/
def login (cfg : AuthConfig) (now : Nat) (username password : String)
    (attempts : AttemptMap) (st : SysState) : LoginResult :=
  let key := pyLower username
  match lookupAttempts attempts key with
  | some (a, t) =>
    if cfg.MAX_LOGIN_ATTEMPTS ≤ a then
      if now - t < cfg.LOCKOUT_TIME_SECONDS then
        { user := none
          attempts := attempts
          st := st
          printed := [Msg.lockedTryAgain (cfg.LOCKOUT_TIME_SECONDS - (now - t))]
          prompted := false }
      else loginBody cfg now username password (eraseAttempts attempts key) st
    else loginBody cfg now username password attempts st
  | none => loginBody cfg now username password attempts st

/-- A concrete empty store used by the witness instantiations. -/
def baseState : SysState :=
  { emKey := 0, rng := 0, users := [], travellers := [], scooters := [],
    logs := [], restore_codes := [], backups := [], trace := [],
    nextUserId := 1, nextLogId := 1, nextCodeId := 1,
    curDate := "2025-06-17", curTime := "12:00:00", today := (2025, 6, 17) }

/-- A concrete Service Engineer actor. -/
def engUser : User :=
  ⟨3, "eng_user1", ROLE_SERVICE_ENGINEER, "Eva", "Ng", "2025-01-01"⟩

/-- A concrete Super Administrator actor. -/
def superAdminUser : User :=
  ⟨1, "super_admin", ROLE_SUPER_ADMIN, "Super", "Admin", "2025-01-01"⟩

/-- A concrete System Administrator actor. -/
def sysAdminUser : User :=
  ⟨2, "admin_one", ROLE_SYSTEM_ADMIN, "Ann", "One", "2025-01-01"⟩

/-- The stored row of `sysAdminUser`. -/
def sysAdminRow : UserRow :=
  ⟨2, CipherBytes.token 0 0 "admin_one", hash_password 100 "SysPass_123?",
    ROLE_SYSTEM_ADMIN, CipherBytes.token 0 1 "Ann", CipherBytes.token 0 2 "One",
    "2025-01-01"⟩

/-- A stored row of a second System Administrator. -/
def sysAdminRow2 : UserRow :=
  ⟨4, CipherBytes.token 0 6 "admin_two", hash_password 102 "SysPass_124?",
    ROLE_SYSTEM_ADMIN, CipherBytes.token 0 7 "Bea", CipherBytes.token 0 8 "Two",
    "2025-01-01"⟩

/-- A stored Service Engineer row. -/
def seRow : UserRow :=
  ⟨3, CipherBytes.token 0 3 "svc_eng01", hash_password 101 "EngPass_1234!",
    ROLE_SERVICE_ENGINEER, CipherBytes.token 0 4 "Sam", CipherBytes.token 0 5 "Vee",
    "2025-01-01"⟩

/-- A store with one System Administrator account. -/
def oneAdminState : SysState :=
  { baseState with users := [sysAdminRow], rng := 10 }

/-- A store with two System Administrators and a Service Engineer. -/
def threeUserState : SysState :=
  { baseState with users := [sysAdminRow, sysAdminRow2, seRow], rng := 10 }

/-- A concrete stored scooter row. -/
def scooterRow7 : ScooterRow :=
  ⟨7, fun k =>
    if k == "brand" then CipherBytes.token 0 20 "OldBrand"
    else if k == "mileage" then CipherBytes.token 0 21 "50"
    else CipherBytes.token 0 22 "x"⟩

/-- A store with one scooter. -/
def scooterState : SysState :=
  { baseState with scooters := [scooterRow7], rng := 30 }

/-- A store with one backup archive on disk and no restore codes. -/
def restoreState : SysState :=
  { baseState with backups := ["backup_1.zip"], rng := 40 }

/-- The concrete restore-code generation of the C3 witness scenario. -/
def c3Gen : Option String × SysState :=
  generate_restore_code (some superAdminUser) sysAdminUser.username "backup_1.zip"
    "deadbeef" restoreState

/-- The first concrete restore of the C3 witness scenario. -/
def c3Restore1 : Option Bool × SysState :=
  restore_from_backup (some sysAdminUser) "backup_1.zip" (some "deadbeef") c3Gen.2

/-- The replayed restore of the C3 witness scenario. -/
def c3Restore2 : Option Bool × SysState :=
  restore_from_backup (some sysAdminUser) "backup_1.zip" (some "deadbeef") c3Restore1.2

/-- The observable outcome C2 requires of a denied call: an Access
Denied result would be `none`; no table other than the audit log changes;
exactly one suspicious entry naming the attempted operation is
appended. -/
def DeniedWithAudit (u : User) (funcName : String) (st st' : SysState) : Prop :=
  st'.users = st.users ∧ st'.travellers = st.travellers ∧
  st'.scooters = st.scooters ∧ st'.restore_codes = st.restore_codes ∧
  st'.backups = st.backups ∧ st'.trace = st.trace ∧
  ∃ e : LogRow, st'.logs = st.logs ++ [e] ∧ e.suspicious = true ∧
    st.em.decrypt e.username = u.username ∧
    st.em.decrypt e.activity = "Authorization failed" ∧
    st.em.decrypt e.info = ("Attempted to use " ++ funcName)

/-- Shared helper: encrypt-then-decrypt under one key is the identity. -/
theorem decrypt_encrypt (m : EncryptionManager) (nonce : Nat) (s : String) :
    m.decrypt (m.encrypt nonce s) = s := by
  simp [EncryptionManager.encrypt, EncryptionManager.decrypt]

/-- Shared helper: `secure_logger_log` touches only the log table, the
log id counter and the randomness counter; it appends exactly one row
whose three text fields decrypt to its arguments and whose read flag
starts false. -/
theorem secure_logger_log_spec (st : SysState) (un act info : String) (sus : Bool) :
    (secure_logger_log st un act info sus).users = st.users ∧
    (secure_logger_log st un act info sus).travellers = st.travellers ∧
    (secure_logger_log st un act info sus).scooters = st.scooters ∧
    (secure_logger_log st un act info sus).restore_codes = st.restore_codes ∧
    (secure_logger_log st un act info sus).backups = st.backups ∧
    (secure_logger_log st un act info sus).trace = st.trace ∧
    (secure_logger_log st un act info sus).emKey = st.emKey ∧
    ∃ e : LogRow,
      (secure_logger_log st un act info sus).logs = st.logs ++ [e] ∧
      e.suspicious = sus ∧ e.is_read = false ∧
      st.em.decrypt e.username = un ∧
      st.em.decrypt e.activity = act ∧
      st.em.decrypt e.info = info := by
  refine ⟨rfl, rfl, rfl, rfl, rfl, rfl, rfl, _, rfl, rfl, rfl, ?_, ?_, ?_⟩ <;>
    simp [secure_logger_log, SysState.encryptFresh, SysState.em,
      EncryptionManager.encrypt, EncryptionManager.decrypt]

/-- C2: whenever an authenticated actor's role is outside an operation's
allowed set, the `requires_role` gate returns `None` without running the
operation, mutates nothing but the audit log, and records one suspicious
entry naming the operation; in particular a Service Engineer calling
`add_new_user`, `delete_traveller` or `restore_from_backup` is so
denied. -/
theorem c2_authorization_gate :
    (∀ (α : Type) (allowed : List String) (fname : String)
        (func : User → SysState → α × SysState) (u : User) (st : SysState),
      u.role ∉ allowed →
      (requires_role allowed fname func (some u) st).1 = none ∧
      DeniedWithAudit u fname st (requires_role allowed fname func (some u) st).2) ∧
    (∀ (u : User) (st : SysState), u.role = ROLE_SERVICE_ENGINEER →
      ∀ (un pw rl fn ln : String) (tid : Nat) (bf : String) (rc : Option String),
      ((add_new_user (some u) un pw rl fn ln st).1 = none ∧
        DeniedWithAudit u "add_new_user" st
          (add_new_user (some u) un pw rl fn ln st).2) ∧
      ((delete_traveller (some u) tid st).1 = none ∧
        DeniedWithAudit u "delete_traveller" st
          (delete_traveller (some u) tid st).2) ∧
      ((restore_from_backup (some u) bf rc st).1 = none ∧
        DeniedWithAudit u "restore_from_backup" st
          (restore_from_backup (some u) bf rc st).2)) := by
  have hgen : ∀ (α : Type) (allowed : List String) (fname : String)
      (func : User → SysState → α × SysState) (u : User) (st : SysState),
      u.role ∉ allowed →
      (requires_role allowed fname func (some u) st).1 = none ∧
      DeniedWithAudit u fname st (requires_role allowed fname func (some u) st).2 := by
    intro α allowed fname func u st h
    constructor
    · simp [requires_role, h]
    · unfold DeniedWithAudit
      simp only [requires_role, if_neg h]
      have hs := secure_logger_log_spec st u.username "Authorization failed"
        ("Attempted to use " ++ fname) true
      obtain ⟨h1, h2, h3, h4, h5, h6, _, e, he, hsus, _, hdu, hda, hdi⟩ := hs
      exact ⟨h1, h2, h3, h4, h5, h6, e, he, hsus, hdu, hda, hdi⟩
  refine ⟨hgen, ?_⟩
  intro u st hrole un pw rl fn ln tid bf rc
  have hnot : u.role ∉ [ROLE_SUPER_ADMIN, ROLE_SYSTEM_ADMIN] := by
    rw [hrole]
    decide
  exact ⟨hgen Bool _ "add_new_user" _ u st hnot,
    hgen Bool _ "delete_traveller" _ u st hnot,
    hgen Bool _ "restore_from_backup" _ u st hnot⟩

/-- Witness for C2: the concrete Service Engineer is denied on all three
operations over the concrete store. -/
theorem c2_authorization_gate_witness :
    engUser.role = ROLE_SERVICE_ENGINEER ∧
    (((add_new_user (some engUser) "new_user1" "Password_123?" ROLE_SERVICE_ENGINEER
        "Ann" "Bee" baseState).1 = none ∧
      DeniedWithAudit engUser "add_new_user" baseState
        (add_new_user (some engUser) "new_user1" "Password_123?" ROLE_SERVICE_ENGINEER
          "Ann" "Bee" baseState).2) ∧
     ((delete_traveller (some engUser) 1 baseState).1 = none ∧
      DeniedWithAudit engUser "delete_traveller" baseState
        (delete_traveller (some engUser) 1 baseState).2) ∧
     ((restore_from_backup (some engUser) "backup_1.zip" none baseState).1 = none ∧
      DeniedWithAudit engUser "restore_from_backup" baseState
        (restore_from_backup (some engUser) "backup_1.zip" none baseState).2)) :=
  ⟨rfl, c2_authorization_gate.2 engUser baseState rfl "new_user1" "Password_123?"
    ROLE_SERVICE_ENGINEER "Ann" "Bee" 1 "backup_1.zip" none⟩

/-- C5: decrypting the result of encrypting any string under the same key
yields the string back. -/
theorem c5_encrypt_decrypt_roundtrip (m : EncryptionManager) (nonce : Nat) (s : String) :
    m.decrypt (m.encrypt nonce s) = s :=
  decrypt_encrypt m nonce s

/-- C6: on bytes that are not a valid ciphertext under the manager's key
(token under another key, or corrupted bytes), `decrypt` does not raise:
it returns the empty string; on a non-bytes input it raises `TypeError`
eagerly. -/
theorem c6_decrypt_invalid_no_raise (m : EncryptionManager) :
    (∀ b : CipherBytes, m.isValidToken b = false →
        m.decryptPy (PyVal.bytes b) = Except.ok "") ∧
    (∀ v : PyVal, (∀ b : CipherBytes, v ≠ PyVal.bytes b) →
        m.decryptPy v = Except.error "TypeError") := by
  constructor
  · intro b hb
    cases b with
    | token k n s =>
      simp [EncryptionManager.isValidToken] at hb
      simp [EncryptionManager.decryptPy, EncryptionManager.decrypt, hb]
    | garbage bs =>
      simp [EncryptionManager.decryptPy, EncryptionManager.decrypt]
  · intro v hv
    cases v with
    | str s => simp [EncryptionManager.decryptPy]
    | bytes b => exact absurd rfl (hv b)
    | int n => simp [EncryptionManager.decryptPy]
    | pynone => simp [EncryptionManager.decryptPy]

/-- C4 (the code, evaluated at the failing input): with the user
`admin_one` already stored, `add_new_user` called by the Super
Administrator with the same plaintext username reports success and
appends a second row — after it, two stored rows decrypt
(case-insensitively) to `admin_one`. The `username BLOB UNIQUE`
constraint never fires because Fernet draws a fresh IV, so the second
ciphertext differs byte-wise from the first. -/
theorem c4_duplicate_username_inserted :
    (_find_user_by_username oneAdminState "admin_one" = some sysAdminRow) ∧
    (add_new_user (some superAdminUser) "admin_one" "Password_123?"
      ROLE_SERVICE_ENGINEER "Ann" "One" oneAdminState).1 = some true ∧
    ((add_new_user (some superAdminUser) "admin_one" "Password_123?"
      ROLE_SERVICE_ENGINEER "Ann" "One" oneAdminState).2.users.filter
        (usernameMatches oneAdminState "admin_one")).length = 2 := by
  refine ⟨?_, ?_, ?_⟩ <;> decide

/-- C7 counterexample: a System Administrator naming themself as the
deletion target — a target whose role is `System Administrator` — gets a
failure, but no suspicious audit entry is recorded (the state does not
change at all), contrary to the claim's "records a suspicious audit
entry" for every SystemAdmin/SuperAdmin target. -/
theorem c7_delete_user_counterexample :
    ((_find_user_by_username oneAdminState "admin_one").map (fun r => r.role) =
      some ROLE_SYSTEM_ADMIN) ∧
    delete_user (some sysAdminUser) "admin_one" oneAdminState =
      (some false, oneAdminState) :=
  ⟨by decide, rfl⟩

/-- C7 (amended): for a System Administrator actor and a stored target
user other than the actor themself, `delete_user` fails with no deletion
and one suspicious audit entry when the target's role is SystemAdmin or
SuperAdmin, and deletes the target when the target's role is
ServiceEngineer. -/
theorem c7_delete_user_role_hierarchy
    (u : User) (target_username : String) (st : SysState) (target : UserRow)
    (hrole : u.role = ROLE_SYSTEM_ADMIN)
    (hself : pyLower u.username ≠ pyLower target_username)
    (hfind : _find_user_by_username st target_username = some target) :
    ((target.role = ROLE_SYSTEM_ADMIN ∨ target.role = ROLE_SUPER_ADMIN) →
      (delete_user (some u) target_username st).1 = some false ∧
      (delete_user (some u) target_username st).2.users = st.users ∧
      ∃ e : LogRow,
        (delete_user (some u) target_username st).2.logs = st.logs ++ [e] ∧
        e.suspicious = true) ∧
    (target.role = ROLE_SERVICE_ENGINEER →
      (delete_user (some u) target_username st).1 = some true ∧
      target ∉ (delete_user (some u) target_username st).2.users ∧
      ∃ e : LogRow,
        (delete_user (some u) target_username st).2.logs = st.logs ++ [e] ∧
        e.suspicious = true) := by
  have hmem : u.role ∈ [ROLE_SUPER_ADMIN, ROLE_SYSTEM_ADMIN] := by
    rw [hrole]; decide
  have hub : (pyLower u.username == pyLower target_username) = false :=
    beq_eq_false_iff_ne.mpr hself
  have hwrap : delete_user (some u) target_username st =
      (some (delete_user_inner target_username u st).1,
        (delete_user_inner target_username u st).2) := by
    rcases h : delete_user_inner target_username u st with ⟨r, st'⟩
    simp only [delete_user, requires_role, if_pos hmem, h]
  constructor
  · intro htarget
    have hcond : (u.role == ROLE_SYSTEM_ADMIN && target.role != ROLE_SERVICE_ENGINEER)
        = true := by
      rcases htarget with h | h <;> rw [hrole, h] <;> decide
    have hinner : delete_user_inner target_username u st =
        (false, secure_logger_log st u.username "Authorization failed"
          ("Attempted to delete user " ++ target_username ++ " (" ++ target.role ++ ")")
          true) := by
      unfold delete_user_inner
      rw [hub, _find_user_by_username] at *
      simp only [Bool.false_eq_true, if_false, hfind, hcond, if_true]
    rw [hwrap, hinner]
    obtain ⟨h1, _, _, _, _, _, _, e, he, hsus, _⟩ :=
      secure_logger_log_spec st u.username "Authorization failed"
        ("Attempted to delete user " ++ target_username ++ " (" ++ target.role ++ ")") true
    exact ⟨rfl, h1, e, he, hsus⟩
  · intro htarget
    have hcond : (u.role == ROLE_SYSTEM_ADMIN && target.role != ROLE_SERVICE_ENGINEER)
        = false := by
      rw [hrole, htarget]; decide
    have hcond2 : (u.role == ROLE_SUPER_ADMIN && target.role == ROLE_SUPER_ADMIN)
        = false := by
      have hne : (ROLE_SYSTEM_ADMIN == ROLE_SUPER_ADMIN) = false := by decide
      rw [hrole, hne, Bool.false_and]
    have hmem2 : target ∈ st.users := List.mem_of_find?_eq_some hfind
    have hpredt : (target.username != target.username) = false := by
      simp
    have hlenlt : ((st.users.filter (fun r => r.username != target.username)).length ==
        st.users.length) = false := by
      apply beq_eq_false_iff_ne.mpr
      intro hlen
      have := List.filter_length_eq_length.mp hlen target hmem2
      rw [hpredt] at this
      exact Bool.false_ne_true this
    have hinner : delete_user_inner target_username u st =
        (true, secure_logger_log
          { st with users := st.users.filter (fun r => r.username != target.username) }
          u.username "Deleted user" ("Target Username: " ++ target_username) true) := by
      unfold delete_user_inner
      rw [hub, _find_user_by_username] at *
      simp only [Bool.false_eq_true, if_false, hfind, hcond, hcond2, hlenlt]
    rw [hwrap, hinner]
    obtain ⟨h1, _, _, _, _, _, _, e, he, hsus, _⟩ :=
      secure_logger_log_spec
        { st with users := st.users.filter (fun r => r.username != target.username) }
        u.username "Deleted user" ("Target Username: " ++ target_username) true
    refine ⟨rfl, ?_, e, he, hsus⟩
    rw [h1]
    intro hmem3
    have := (List.mem_filter.mp hmem3).2
    rw [hpredt] at this
    exact Bool.false_ne_true this

/-- Witness for C7's amended theorem: over the concrete three-user store,
`admin_one` cannot delete `admin_two` (suspicious entry, no deletion) and
does delete `svc_eng01`. -/
theorem c7_delete_user_role_hierarchy_witness :
    (sysAdminUser.role = ROLE_SYSTEM_ADMIN ∧
      pyLower sysAdminUser.username ≠ pyLower "admin_two" ∧
      _find_user_by_username threeUserState "admin_two" = some sysAdminRow2 ∧
      ((delete_user (some sysAdminUser) "admin_two" threeUserState).1 = some false ∧
        (delete_user (some sysAdminUser) "admin_two" threeUserState).2.users =
          threeUserState.users ∧
        ∃ e : LogRow,
          (delete_user (some sysAdminUser) "admin_two" threeUserState).2.logs =
            threeUserState.logs ++ [e] ∧ e.suspicious = true)) ∧
    (pyLower sysAdminUser.username ≠ pyLower "svc_eng01" ∧
      _find_user_by_username threeUserState "svc_eng01" = some seRow ∧
      ((delete_user (some sysAdminUser) "svc_eng01" threeUserState).1 = some true ∧
        seRow ∉ (delete_user (some sysAdminUser) "svc_eng01" threeUserState).2.users ∧
        ∃ e : LogRow,
          (delete_user (some sysAdminUser) "svc_eng01" threeUserState).2.logs =
            threeUserState.logs ++ [e] ∧ e.suspicious = true)) := by
  refine ⟨⟨rfl, by decide, by decide, ?_⟩, ⟨by decide, by decide, ?_⟩⟩
  · exact (c7_delete_user_role_hierarchy sysAdminUser "admin_two" threeUserState
      sysAdminRow2 rfl (by decide) (by decide)).1 (Or.inl rfl)
  · exact (c7_delete_user_role_hierarchy sysAdminUser "svc_eng01" threeUserState
      seRow rfl (by decide) (by decide)).2 rfl

/-- Shared helper: after deleting a key from the attempt dictionary, a
lookup of that key finds nothing. -/
theorem lookupAttempts_eraseAttempts (m : AttemptMap) (k : String) :
    lookupAttempts (eraseAttempts m k) k = none := by
  unfold lookupAttempts eraseAttempts
  rw [List.find?_eq_none.mpr]
  · rfl
  · intro x hx
    have hq := (List.mem_filter.mp hx).2
    simp only [bne_iff_ne, ne_eq] at hq
    simp [hq]

/-- C1 (spec-modelled constants): with a tracked attempt record at or
past `MAX_LOGIN_ATTEMPTS` whose last attempt lies inside the lockout
window, `login` returns `None` without reaching the password prompt and
changes nothing; once the window has elapsed, the record is deleted and a
login that matches a stored user with the correct password succeeds, with
no attempt record left for that username. -/
theorem c1_lockout_behavior :
    (∀ (cfg : AuthConfig) (now : Nat) (username password : String)
        (attempts : AttemptMap) (st : SysState) (a t : Nat),
      lookupAttempts attempts (pyLower username) = some (a, t) →
      cfg.MAX_LOGIN_ATTEMPTS ≤ a →
      now - t < cfg.LOCKOUT_TIME_SECONDS →
      (login cfg now username password attempts st).user = none ∧
      (login cfg now username password attempts st).prompted = false ∧
      (login cfg now username password attempts st).st = st ∧
      (login cfg now username password attempts st).attempts = attempts) ∧
    (∀ (cfg : AuthConfig) (now : Nat) (username password : String)
        (attempts : AttemptMap) (st : SysState) (a t : Nat) (r : UserRow),
      lookupAttempts attempts (pyLower username) = some (a, t) →
      cfg.MAX_LOGIN_ATTEMPTS ≤ a →
      cfg.LOCKOUT_TIME_SECONDS ≤ now - t →
      st.users.find? (usernameMatches st username) = some r →
      verify_password password r.password_hash = true →
      (login cfg now username password attempts st).user =
        some (decryptUserRow st r) ∧
      lookupAttempts (login cfg now username password attempts st).attempts
        (pyLower username) = none) := by
  constructor
  · intro cfg now un pw attempts st a t hl hmax hwin
    simp only [login, hl, if_pos hmax, if_pos hwin]
    exact ⟨trivial, trivial, trivial, trivial⟩
  · intro cfg now un pw attempts st a t r hl hmax hwin hfind hverify
    have hnotlt : ¬ (now - t < cfg.LOCKOUT_TIME_SECONDS) := not_lt.mpr hwin
    simp only [login, hl, if_pos hmax, if_neg hnotlt, loginBody, hfind, hverify, if_true]
    exact ⟨trivial, lookupAttempts_eraseAttempts _ _⟩

/-- Witness for C1: with threshold 3 and a 300-second lockout, the
record (3 attempts, last at second 1000) blocks a login at second 1100
untouched and unprompted, while at second 1400 the correct password of
the stored `admin_one` logs in and clears the record. -/
theorem c1_lockout_behavior_witness :
    ((login ⟨3, 300⟩ 1100 "admin_one" "SysPass_123?" [("admin_one", 3, 1000)]
        oneAdminState).user = none ∧
     (login ⟨3, 300⟩ 1100 "admin_one" "SysPass_123?" [("admin_one", 3, 1000)]
        oneAdminState).prompted = false ∧
     (login ⟨3, 300⟩ 1100 "admin_one" "SysPass_123?" [("admin_one", 3, 1000)]
        oneAdminState).st = oneAdminState ∧
     (login ⟨3, 300⟩ 1100 "admin_one" "SysPass_123?" [("admin_one", 3, 1000)]
        oneAdminState).attempts = [("admin_one", 3, 1000)]) ∧
    ((login ⟨3, 300⟩ 1400 "admin_one" "SysPass_123?" [("admin_one", 3, 1000)]
        oneAdminState).user = some (decryptUserRow oneAdminState sysAdminRow) ∧
     lookupAttempts (login ⟨3, 300⟩ 1400 "admin_one" "SysPass_123?"
        [("admin_one", 3, 1000)] oneAdminState).attempts (pyLower "admin_one") = none) :=
  ⟨c1_lockout_behavior.1 ⟨3, 300⟩ 1100 "admin_one" "SysPass_123?"
      [("admin_one", 3, 1000)] oneAdminState 3 1000 (by decide) (by decide) (by decide),
   c1_lockout_behavior.2 ⟨3, 300⟩ 1400 "admin_one" "SysPass_123?"
      [("admin_one", 3, 1000)] oneAdminState 3 1000 sysAdminRow (by decide) (by decide)
      (by decide) (by decide) (by decide)⟩

/-- C8: from the same state, a failed login with an unknown username and
one with a known username but wrong password print identical console
output (neither locked out, same prior attempt count), while the audit
rows they append carry the distinct reasons `Username not found` and
`Wrong password`. -/
theorem c8_failure_reason_hidden_from_user
    (cfg : AuthConfig) (now : Nat) (uA pA uB pB : String)
    (attempts : AttemptMap) (st : SysState) (r : UserRow)
    (hA1 : lookupAttempts attempts (pyLower uA) = none)
    (hB1 : lookupAttempts attempts (pyLower uB) = none)
    (hA2 : st.users.find? (usernameMatches st uA) = none)
    (hB2 : st.users.find? (usernameMatches st uB) = some r)
    (hBv : verify_password pB r.password_hash = false) :
    (login cfg now uA pA attempts st).printed =
      (login cfg now uB pB attempts st).printed ∧
    (login cfg now uA pA attempts st).user = none ∧
    (login cfg now uB pB attempts st).user = none ∧
    (∃ eA : LogRow, (login cfg now uA pA attempts st).st.logs = st.logs ++ [eA] ∧
      eA.suspicious = true ∧ st.em.decrypt eA.info = "Username not found") ∧
    (∃ eB : LogRow, (login cfg now uB pB attempts st).st.logs = st.logs ++ [eB] ∧
      eB.suspicious = true ∧ st.em.decrypt eB.info = "Wrong password") ∧
    ("Username not found" : String) ≠ "Wrong password" := by
  have hA : login cfg now uA pA attempts st = loginFail cfg now uA attempts st false := by
    simp only [login, hA1, loginBody, hA2]
  have hB : login cfg now uB pB attempts st = loginFail cfg now uB attempts st true := by
    simp only [login, hB1, loginBody, hB2, hBv, Bool.false_eq_true, if_false]
  rw [hA, hB]
  obtain ⟨_, _, _, _, _, _, _, eA, heA, hsusA, _, _, _, hinfoA⟩ :=
    secure_logger_log_spec st uA "Unsuccessful login" "Username not found" true
  obtain ⟨_, _, _, _, _, _, _, eB, heB, hsusB, _, _, _, hinfoB⟩ :=
    secure_logger_log_spec st uB "Unsuccessful login" "Wrong password" true
  refine ⟨?_, rfl, rfl, ⟨eA, ?_, hsusA, hinfoA⟩, ⟨eB, ?_, hsusB, hinfoB⟩, by decide⟩
  · simp only [loginFail, hA1, hB1]
  · simp only [loginFail, Bool.false_eq_true, if_false]
    exact heA
  · simp only [loginFail, if_true]
    exact heB

/-- Witness for C8 over the concrete one-admin store: the unknown
`ghost_user` and the known `admin_one` with a wrong password produce the
same console output and differently-worded audit reasons. -/
theorem c8_failure_reason_hidden_from_user_witness :
    ((login ⟨3, 300⟩ 1000 "ghost_user" "Whatever_123?" [] oneAdminState).printed =
      (login ⟨3, 300⟩ 1000 "admin_one" "WrongPass_123?" [] oneAdminState).printed ∧
     (login ⟨3, 300⟩ 1000 "ghost_user" "Whatever_123?" [] oneAdminState).user = none ∧
     (login ⟨3, 300⟩ 1000 "admin_one" "WrongPass_123?" [] oneAdminState).user = none ∧
     (∃ eA : LogRow,
       (login ⟨3, 300⟩ 1000 "ghost_user" "Whatever_123?" [] oneAdminState).st.logs =
         oneAdminState.logs ++ [eA] ∧ eA.suspicious = true ∧
       oneAdminState.em.decrypt eA.info = "Username not found") ∧
     (∃ eB : LogRow,
       (login ⟨3, 300⟩ 1000 "admin_one" "WrongPass_123?" [] oneAdminState).st.logs =
         oneAdminState.logs ++ [eB] ∧ eB.suspicious = true ∧
       oneAdminState.em.decrypt eB.info = "Wrong password") ∧
     ("Username not found" : String) ≠ "Wrong password") :=
  c8_failure_reason_hidden_from_user ⟨3, 300⟩ 1000 "ghost_user" "Whatever_123?"
    "admin_one" "WrongPass_123?" [] oneAdminState sysAdminRow (by decide) (by decide)
    (by decide) (by decide) (by decide)

/-- Shared helper: after the mark-as-read rewrite, every row whose id is
in the marked list carries read flag true. -/
theorem marked_logs_read (ids : List Nat) (l : List LogRow) :
    ((l.map (fun r => if ids.contains r.id then { r with is_read := true } else r)).filter
      (fun r => ids.contains r.id)).all (fun r => r.is_read) = true := by
  induction l with
  | nil => rfl
  | cons r l ih =>
    by_cases h : ids.contains r.id = true <;> simp_all

/-- Shared helper: after the mark-as-read rewrite, no row that is still
suspicious-and-unread has its id in the marked list. -/
theorem marked_logs_unread_disjoint (ids : List Nat) (l : List LogRow) :
    ((l.map (fun r => if ids.contains r.id then { r with is_read := true } else r)).filter
      (fun r => r.suspicious && !r.is_read)).all
        (fun r => !(ids.contains r.id)) = true := by
  induction l with
  | nil => rfl
  | cons r l ih =>
    by_cases h : ids.contains r.id = true <;> simp_all

/-- C9: after `get_logs`, every entry of the store whose id was returned
— suspicious or not — carries read flag 1, and the suspicious-and-unread
rows that `check_unread_alerts` subsequently counts include none of the
returned ids. -/
theorem c9_get_logs_marks_everything_read (st : SysState) (limit : Nat) :
    (((get_logs st limit).2.logs.filter
        (fun r => ((get_logs st limit).1.map (fun v => v.id)).contains r.id)).all
      (fun r => r.is_read) = true) ∧
    (((get_logs st limit).2.logs.filter (fun r => r.suspicious && !r.is_read)).all
      (fun r => !(((get_logs st limit).1.map (fun v => v.id)).contains r.id)) = true) := by
  have hids : (get_logs st limit).1.map (fun v => v.id) =
      ((sortLogsDesc st.logs).take limit).map (fun r => r.id) := by
    simp [get_logs, List.map_map]
    rfl
  have hmark : (get_logs st limit).2 =
      mark_logs_as_read st (((sortLogsDesc st.logs).take limit).map (fun r => r.id)) := by
    simp [get_logs]
  rw [hids, hmark]
  generalize ((sortLogsDesc st.logs).take limit).map (fun r => r.id) = I
  unfold mark_logs_as_read
  by_cases h : I.isEmpty = true
  · rw [if_pos h]
    rw [List.isEmpty_iff.mp h]
    constructor <;> simp
  · rw [if_neg h]
    exact ⟨marked_logs_read I st.logs, marked_logs_unread_disjoint I st.logs⟩

/-- Shared helper: when every editable field among the updates carries a
valid value, the `update_scooter` filter loop keeps exactly the editable
fields, in order. -/
theorem filterScooterUpdates_all_valid (today : Nat × Nat × Nat) (editable : List String)
    (updates : List (String × String))
    (h : ∀ kv ∈ updates, editable.contains kv.1 = true →
      validateScooterField today kv.1 kv.2 = true) :
    filterScooterUpdates today editable updates =
      some (updates.filter (fun kv => editable.contains kv.1)) := by
  induction updates with
  | nil => rfl
  | cons kv rest ih =>
    obtain ⟨k, v⟩ := kv
    have hrest := ih (fun x hx => h x (List.mem_cons_of_mem _ hx))
    by_cases hk : editable.contains k = true
    · have hv := h (k, v) (List.mem_cons_self _ _) hk
      simp only [filterScooterUpdates, hk, if_true, hv, hrest, List.filter_cons,
        List.filter_cons_of_pos]
      rfl
    · simp only [Bool.not_eq_true] at hk
      simp only [filterScooterUpdates, hk, Bool.false_eq_true, if_false, hrest,
        List.filter_cons]

/-- Shared helper: encrypting the allowed updates keeps the column names
and their order. -/
theorem encryptUpdates_keys (st : SysState) (l : List (String × String)) :
    (encryptUpdates st l).1.map Prod.fst = l.map Prod.fst := by
  induction l generalizing st with
  | nil => rfl
  | cons kv rest ih =>
    obtain ⟨k, v⟩ := kv
    simp only [encryptUpdates, SysState.encryptFresh, List.map_cons, List.cons.injEq]
    exact ⟨trivial, ih _⟩

/-- Shared helper: encrypting the allowed updates only consumes
randomness: the tables and the key are untouched. -/
theorem encryptUpdates_state (st : SysState) (l : List (String × String)) :
    (encryptUpdates st l).2.scooters = st.scooters ∧
    (encryptUpdates st l).2.logs = st.logs ∧
    (encryptUpdates st l).2.emKey = st.emKey := by
  induction l generalizing st with
  | nil => exact ⟨rfl, rfl, rfl⟩
  | cons kv rest ih =>
    obtain ⟨k, v⟩ := kv
    simpa only [encryptUpdates, SysState.encryptFresh] using
      ih { st with rng := st.rng + 1 }

/-- Shared helper: a SET clause that never names column `k` leaves that
column unchanged. -/
theorem applyCols_not_mem (cols : String → CipherBytes) (l : List (String × CipherBytes))
    (k : String) (h : ∀ kv ∈ l, kv.1 ≠ k) :
    applyCols cols l k = cols k := by
  induction l generalizing cols with
  | nil => rfl
  | cons kv rest ih =>
    obtain ⟨k1, c⟩ := kv
    have h1 : k1 ≠ k := h (k1, c) (List.mem_cons_self _ _)
    simp only [applyCols]
    rw [ih _ (fun x hx => h x (List.mem_cons_of_mem _ hx))]
    simp [setCol, beq_eq_false_iff_ne.mpr (Ne.symm h1)]

/-- Shared helper: applying the encrypted allowed updates writes, for
each distinct column named, a ciphertext that decrypts back to the given
value. -/
theorem applyCols_encryptUpdates_applied (st : SysState) (l : List (String × String))
    (cols : String → CipherBytes) (hnd : (l.map Prod.fst).Nodup) :
    ∀ kv ∈ l, st.em.decrypt (applyCols cols (encryptUpdates st l).1 kv.1) = kv.2 := by
  induction l generalizing st cols with
  | nil => intro kv hkv; cases hkv
  | cons hd rest ih =>
    obtain ⟨k, v⟩ := hd
    intro kv hkv
    simp only [List.map_cons, List.nodup_cons] at hnd
    simp only [encryptUpdates, SysState.encryptFresh, applyCols]
    rcases List.mem_cons.mp hkv with heq | hmem
    · subst heq
      have hknotin : ∀ x ∈ (encryptUpdates { st with rng := st.rng + 1 } rest).1,
          x.1 ≠ k := by
        intro x hx hxk
        apply hnd.1
        rw [← hxk]
        have : x.1 ∈ (encryptUpdates { st with rng := st.rng + 1 } rest).1.map Prod.fst :=
          List.mem_map_of_mem Prod.fst hx
        rwa [encryptUpdates_keys] at this
      rw [applyCols_not_mem _ _ _ hknotin]
      simp [setCol, SysState.em, EncryptionManager.encrypt, EncryptionManager.decrypt]
    · exact ih { st with rng := st.rng + 1 } (setCol cols k (st.em.encrypt st.rng v))
        hnd.2 kv hmem

/-- C10: a Service Engineer's `update_scooter` call silently drops every
field outside the engineer-editable subset (recording no suspicious
entry: the only appended audit row is non-suspicious), applies the
remaining allowed fields to the scooter, leaves all other columns
unchanged, and fails with no mutation at all when no allowed field
remains. -/
theorem c10_update_scooter_engineer_subset
    (u : User) (sid : Nat) (updates : List (String × String)) (st : SysState)
    (hrole : u.role = ROLE_SERVICE_ENGINEER)
    (hnd : (updates.map Prod.fst).Nodup)
    (hvalid : ∀ kv ∈ updates, service_engineer_fields.contains kv.1 = true →
      validateScooterField st.today kv.1 kv.2 = true) :
    (updates.filter (fun kv => service_engineer_fields.contains kv.1) = [] →
      update_scooter (some u) sid updates st = (some false, st)) ∧
    (∀ row ∈ st.scooters, row.id = sid →
      updates.filter (fun kv => service_engineer_fields.contains kv.1) ≠ [] →
      (update_scooter (some u) sid updates st).1 = some true ∧
      (∃ e : LogRow,
        (update_scooter (some u) sid updates st).2.logs = st.logs ++ [e] ∧
        e.suspicious = false) ∧
      (∃ row' ∈ (update_scooter (some u) sid updates st).2.scooters,
        row'.id = row.id ∧
        (∀ k : String, service_engineer_fields.contains k = false →
          row'.cols k = row.cols k) ∧
        (∀ kv ∈ updates.filter (fun kv => service_engineer_fields.contains kv.1),
          st.em.decrypt (row'.cols kv.1) = kv.2))) := by
  have hmem : u.role ∈ [ROLE_SUPER_ADMIN, ROLE_SYSTEM_ADMIN, ROLE_SERVICE_ENGINEER] := by
    rw [hrole]; decide
  have hwrap : update_scooter (some u) sid updates st =
      (some (update_scooter_inner sid updates u st).1,
        (update_scooter_inner sid updates u st).2) := by
    rcases h : update_scooter_inner sid updates u st with ⟨r, st'⟩
    simp only [update_scooter, requires_role, if_pos hmem, h]
  have hrb : (u.role == ROLE_SERVICE_ENGINEER) = true := by
    rw [hrole]; decide
  have hfilter := filterScooterUpdates_all_valid st.today service_engineer_fields
    updates hvalid
  constructor
  · intro hempty
    have hinner : update_scooter_inner sid updates u st = (false, st) := by
      simp only [update_scooter_inner, hrb, if_true, hfilter, hempty,
        List.isEmpty_nil, if_true]
    rw [hwrap, hinner]
  · intro row hrow hid hne
    have hemptyf :
        (updates.filter (fun kv => service_engineer_fields.contains kv.1)).isEmpty
          = false := by
      cases hk : updates.filter (fun kv => service_engineer_fields.contains kv.1) with
      | nil => exact absurd hk hne
      | cons a l => rfl
    rcases henc : encryptUpdates st
        (updates.filter (fun kv => service_engineer_fields.contains kv.1))
      with ⟨enc, st1⟩
    have hstate := encryptUpdates_state st
      (updates.filter (fun kv => service_engineer_fields.contains kv.1))
    rw [henc] at hstate
    have hrow1 : row ∈ st1.scooters := by
      rw [hstate.1]; exact hrow
    have hall : (st1.scooters.all (fun r => r.id != sid)) = false := by
      refine List.all_eq_false.mpr ⟨row, hrow1, ?_⟩
      simp [hid]
    have hinner : update_scooter_inner sid updates u st =
        (true, secure_logger_log
          { st1 with
            scooters := (st1.scooters.map (fun r =>
              if r.id == sid then ⟨r.id, applyCols r.cols enc⟩ else r)) }
          u.username "Updated scooter" ("ID: " ++ toString sid) false) := by
      simp only [update_scooter_inner, hrb, if_true, hfilter, hemptyf,
        Bool.false_eq_true, if_false, henc, hall]
    rw [hwrap, hinner]
    obtain ⟨husers, _, hscoot, _, _, _, _, e, hlogs, hsus, _⟩ :=
      secure_logger_log_spec
        { st1 with
          scooters := (st1.scooters.map (fun r =>
            if r.id == sid then ⟨r.id, applyCols r.cols enc⟩ else r)) }
        u.username "Updated scooter" ("ID: " ++ toString sid) false
    have hkeys : enc.map Prod.fst =
        (updates.filter (fun kv => service_engineer_fields.contains kv.1)).map
          Prod.fst := by
      have := encryptUpdates_keys st
        (updates.filter (fun kv => service_engineer_fields.contains kv.1))
      rwa [henc] at this
    refine ⟨rfl, ⟨e, ?_, hsus⟩, ?_⟩
    · rw [hlogs, hstate.2.1]
    · refine ⟨⟨row.id, applyCols row.cols enc⟩, ?_, rfl, ?_, ?_⟩
      · rw [hscoot]
        have : (fun r : ScooterRow =>
            if r.id == sid then (⟨r.id, applyCols r.cols enc⟩ : ScooterRow) else r) row =
            ⟨row.id, applyCols row.cols enc⟩ := by
          simp [hid]
        rw [← this]
        exact List.mem_map_of_mem _ hrow1
      · intro k hk
        apply applyCols_not_mem
        intro kv hkv hkv1
        have hmemk : kv.1 ∈ enc.map Prod.fst := List.mem_map_of_mem Prod.fst hkv
        rw [hkeys, hkv1] at hmemk
        obtain ⟨kv2, hkv2, hkv2e⟩ := List.mem_map.mp hmemk
        have := (List.mem_filter.mp hkv2).2
        rw [hkv2e] at this
        rw [hk] at this
        exact Bool.false_ne_true this
      · intro kv hkv
        have hndk : ((updates.filter
            (fun kv => service_engineer_fields.contains kv.1)).map Prod.fst).Nodup :=
          List.Nodup.sublist (List.Sublist.map Prod.fst (List.filter_sublist updates)) hnd
        have := applyCols_encryptUpdates_applied st
          (updates.filter (fun kv => service_engineer_fields.contains kv.1))
          row.cols hndk kv hkv
        rwa [henc] at this

/-- Witness for C10: over a one-scooter store, the engineer's update map
with a `brand` entry and a `mileage` entry drops `brand`, applies
`mileage`, leaves `brand`'s stored value untouched, and logs
non-suspicious; an update map holding only `brand` fails outright with no
change. -/
theorem c10_update_scooter_engineer_subset_witness :
    ((([("brand", "Bolt")] :
        List (String × String)).filter
          (fun kv => service_engineer_fields.contains kv.1) = []) ∧
      update_scooter (some engUser) 7 [("brand", "Bolt")] scooterState =
        (some false, scooterState)) ∧
    ((update_scooter (some engUser) 7 [("brand", "Bolt"), ("mileage", "100")]
        scooterState).1 = some true ∧
      (∃ e : LogRow,
        (update_scooter (some engUser) 7 [("brand", "Bolt"), ("mileage", "100")]
          scooterState).2.logs = scooterState.logs ++ [e] ∧ e.suspicious = false) ∧
      (∃ row' ∈ (update_scooter (some engUser) 7
          [("brand", "Bolt"), ("mileage", "100")] scooterState).2.scooters,
        row'.id = scooterRow7.id ∧
        (∀ k : String, service_engineer_fields.contains k = false →
          row'.cols k = scooterRow7.cols k) ∧
        (∀ kv ∈ ([("brand", "Bolt"), ("mileage", "100")] :
            List (String × String)).filter
              (fun kv => service_engineer_fields.contains kv.1),
          scooterState.em.decrypt (row'.cols kv.1) = kv.2))) :=
  ⟨⟨by decide,
    (c10_update_scooter_engineer_subset engUser 7 [("brand", "Bolt")] scooterState rfl
      (by decide) (by decide)).1 (by decide)⟩,
   (c10_update_scooter_engineer_subset engUser 7 [("brand", "Bolt"), ("mileage", "100")]
      scooterState rfl (by decide) (by decide)).2 scooterRow7 (List.Mem.head _) rfl
      (by decide)⟩

/-- Shared helper (restore flow): `generate_restore_code` by a Super
Administrator returns the drawn code and appends its encrypted row,
unused, before logging. -/
theorem generate_restore_code_eq (su : User) (target fname code : String) (st : SysState)
    (hsu : su.role = ROLE_SUPER_ADMIN) :
    generate_restore_code (some su) target fname code st =
      (some code, secure_logger_log
        { st with
          rng := st.rng + 1,
          restore_codes := st.restore_codes ++
            [⟨st.nextCodeId, CipherBytes.token st.emKey st.rng code, fname, target,
              false, st.curDate⟩],
          nextCodeId := st.nextCodeId + 1 }
        su.username "Generated restore code"
        ("For user " ++ target ++ ", file " ++ fname) false) := by
  have hsumem : su.role ∈ [ROLE_SUPER_ADMIN] := by rw [hsu]; decide
  simp only [generate_restore_code, requires_role, if_pos hsumem,
    generate_restore_code_inner, SysState.encryptFresh, SysState.em,
    EncryptionManager.encrypt]

/-- Shared helper (restore flow): a System Administrator presenting a
code whose stored row matches and decrypts correctly gets a restore: the
row is marked used, then the archive is extracted, then the restore is
logged suspicious. -/
theorem restore_sysadmin_success (u : User) (fname code : String) (st : SysState)
    (row : CodeRow)
    (hu : u.role = ROLE_SYSTEM_ADMIN)
    (hb : st.backups.contains fname = true)
    (hfind : st.restore_codes.find? (codeRowMatches u fname) = some row)
    (hdec : st.em.decrypt row.code = code) :
    restore_from_backup (some u) fname (some code) st =
      (some true, secure_logger_log
        { st with
          restore_codes := (st.restore_codes.map (fun r =>
            if r.id == row.id then { r with is_used := true } else r)),
          trace := (st.trace ++ [Event.markCodeUsed row.id]) ++
            [Event.extractArchive fname] }
        u.username "Restored from backup" ("File: " ++ fname) true) := by
  have humem : u.role ∈ [ROLE_SUPER_ADMIN, ROLE_SYSTEM_ADMIN] := by rw [hu]; decide
  have hub : (u.role == ROLE_SYSTEM_ADMIN) = true := by rw [hu]; decide
  have hnb : (!st.backups.contains fname) = false := by rw [hb]; rfl
  have hbne : (st.em.decrypt row.code != code) = false := by rw [hdec]; simp
  simp only [restore_from_backup, requires_role, if_pos humem,
    restore_from_backup_inner, hnb, Bool.false_eq_true, if_false, hub, if_true,
    hfind, hbne, extractAndLog]

/-- Shared helper (restore flow): a System Administrator whose presented
code matches no stored (username, filename, unused) row gets a failure
logged suspicious, with nothing extracted and nothing marked. -/
theorem restore_sysadmin_fail_nofind (u : User) (fname code : String) (st : SysState)
    (hu : u.role = ROLE_SYSTEM_ADMIN)
    (hb : st.backups.contains fname = true)
    (hfind : st.restore_codes.find? (codeRowMatches u fname) = none) :
    restore_from_backup (some u) fname (some code) st =
      (some false, secure_logger_log st u.username "Failed backup restore"
        ("Invalid code used for " ++ fname) true) := by
  have humem : u.role ∈ [ROLE_SUPER_ADMIN, ROLE_SYSTEM_ADMIN] := by rw [hu]; decide
  have hub : (u.role == ROLE_SYSTEM_ADMIN) = true := by rw [hu]; decide
  have hnb : (!st.backups.contains fname) = false := by rw [hb]; rfl
  simp only [restore_from_backup, requires_role, if_pos humem,
    restore_from_backup_inner, hnb, Bool.false_eq_true, if_false, hub, if_true, hfind]

/-- Shared helper (restore flow): after marking the row with the given
id used, every stored row carrying that id is used. -/
theorem marked_codes_used (cid : Nat) (l : List CodeRow) :
    ∀ y ∈ l.map (fun r => if r.id == cid then { r with is_used := true } else r),
      y.id = cid → y.is_used = true := by
  intro y hy hid
  obtain ⟨x, hx, hxy⟩ := List.mem_map.mp hy
  subst hxy
  by_cases h : (x.id == cid) = true
  · simp [h]
  · rw [if_neg (by simp [h])] at hid ⊢
    exact absurd (beq_iff_eq.mpr hid) (by simp [h])

/-- Shared helper (restore flow): after the mark-as-used rewrite in which
every row either failed the (username, filename, unused) match or carries
the marked id, no row matches any more. -/
theorem find?_marked_codes_none (u : User) (f : String) (cid : Nat) (l : List CodeRow)
    (h : ∀ y ∈ l, codeRowMatches u f y = false ∨ y.id = cid) :
    ((l.map (fun r => if r.id == cid then { r with is_used := true } else r)).find?
      (codeRowMatches u f)) = none := by
  rw [List.find?_eq_none]
  intro x hx
  obtain ⟨y, hy, hyx⟩ := List.mem_map.mp hx
  subst hyx
  rcases h y hy with hm | hid
  · by_cases hy2 : (y.id == cid) = true
    · simp [hy2, codeRowMatches]
    · rw [if_neg (by simp [hy2])]
      simp [hm]
  · have : (y.id == cid) = true := beq_iff_eq.mpr hid
    simp [this, codeRowMatches]

/-- C3: a restore code generated by a Super Administrator for a System
Administrator and a backup filename works exactly once: the first
`restore_from_backup` with it succeeds — the stored row is marked used
and the mark event precedes the extraction event in the trace — and a
replay of the same code fails, records a suspicious `Failed backup
restore` entry, and extracts nothing. -/
theorem c3_restore_code_single_use
    (st0 : SysState) (su u : User) (fname code : String)
    (hsu : su.role = ROLE_SUPER_ADMIN)
    (hu : u.role = ROLE_SYSTEM_ADMIN)
    (hb : st0.backups.contains fname = true)
    (hprior : ∀ y ∈ st0.restore_codes, codeRowMatches u fname y = false) :
    ∀ rc1 st1, generate_restore_code (some su) u.username fname code st0 = (rc1, st1) →
    ∀ r1 st2, restore_from_backup (some u) fname (some code) st1 = (r1, st2) →
    ∀ r2 st3, restore_from_backup (some u) fname (some code) st2 = (r2, st3) →
      rc1 = some code ∧
      r1 = some true ∧
      st2.trace = st0.trace ++
        [Event.markCodeUsed st0.nextCodeId, Event.extractArchive fname] ∧
      (∀ y ∈ st2.restore_codes, y.id = st0.nextCodeId → y.is_used = true) ∧
      r2 = some false ∧
      st3.trace = st2.trace ∧
      (∃ e : LogRow, st3.logs = st2.logs ++ [e] ∧ e.suspicious = true ∧
        st0.em.decrypt e.activity = "Failed backup restore") := by
  intro rc1 st1 hgen1 r1 st2 hres1 r2 st3 hres2
  rw [generate_restore_code_eq su u.username fname code st0 hsu, Prod.mk.injEq] at hgen1
  obtain ⟨hrc1, hst1⟩ := hgen1
  subst hst1
  subst hrc1
  obtain ⟨_, _, _, hcodes1, hback1, htr1, hkey1, _⟩ :=
    secure_logger_log_spec
      { st0 with
        rng := st0.rng + 1,
        restore_codes := st0.restore_codes ++
          [⟨st0.nextCodeId, CipherBytes.token st0.emKey st0.rng code, fname,
            u.username, false, st0.curDate⟩],
        nextCodeId := st0.nextCodeId + 1 }
      su.username "Generated restore code"
      ("For user " ++ u.username ++ ", file " ++ fname) false
  set st1 := secure_logger_log
    { st0 with
      rng := st0.rng + 1,
      restore_codes := st0.restore_codes ++
        [⟨st0.nextCodeId, CipherBytes.token st0.emKey st0.rng code, fname,
          u.username, false, st0.curDate⟩],
      nextCodeId := st0.nextCodeId + 1 }
    su.username "Generated restore code"
    ("For user " ++ u.username ++ ", file " ++ fname) false with hst1def
  have hcodes1' : st1.restore_codes = st0.restore_codes ++
      [⟨st0.nextCodeId, CipherBytes.token st0.emKey st0.rng code, fname,
        u.username, false, st0.curDate⟩] := hcodes1
  have hback1' : st1.backups = st0.backups := hback1
  have htr1' : st1.trace = st0.trace := htr1
  have hkey1' : st1.emKey = st0.emKey := hkey1
  have hb1 : st1.backups.contains fname = true := by rw [hback1']; exact hb
  have hfind1 : st1.restore_codes.find? (codeRowMatches u fname) =
      some ⟨st0.nextCodeId, CipherBytes.token st0.emKey st0.rng code, fname,
        u.username, false, st0.curDate⟩ := by
    rw [hcodes1', List.find?_append, List.find?_eq_none.mpr, Option.none_or]
    · simp [codeRowMatches]
    · intro y hy
      simp [hprior y hy]
  have hdec1 : st1.em.decrypt
      (⟨st0.nextCodeId, CipherBytes.token st0.emKey st0.rng code, fname,
        u.username, false, st0.curDate⟩ : CodeRow).code = code := by
    unfold SysState.em
    rw [hkey1']
    simp [EncryptionManager.decrypt]
  rw [restore_sysadmin_success u fname code st1
    ⟨st0.nextCodeId, CipherBytes.token st0.emKey st0.rng code, fname,
      u.username, false, st0.curDate⟩ hu hb1 hfind1 hdec1, Prod.mk.injEq] at hres1
  obtain ⟨hr1, hst2⟩ := hres1
  subst hst2
  subst hr1
  obtain ⟨_, _, _, hcodes2, hback2, htr2, hkey2, _⟩ :=
    secure_logger_log_spec
      { st1 with
        restore_codes := (st1.restore_codes.map (fun r =>
          if r.id == st0.nextCodeId then { r with is_used := true } else r)),
        trace := (st1.trace ++ [Event.markCodeUsed st0.nextCodeId]) ++
          [Event.extractArchive fname] }
      u.username "Restored from backup" ("File: " ++ fname) true
  set st2 := secure_logger_log
    { st1 with
      restore_codes := (st1.restore_codes.map (fun r =>
        if r.id == (⟨st0.nextCodeId, CipherBytes.token st0.emKey st0.rng code, fname,
          u.username, false, st0.curDate⟩ : CodeRow).id then { r with is_used := true }
        else r)),
      trace := (st1.trace ++ [Event.markCodeUsed
        (⟨st0.nextCodeId, CipherBytes.token st0.emKey st0.rng code, fname,
          u.username, false, st0.curDate⟩ : CodeRow).id]) ++
        [Event.extractArchive fname] }
    u.username "Restored from backup" ("File: " ++ fname) true with hst2def
  have hcodes2' : st2.restore_codes =
      (st0.restore_codes ++
        ([⟨st0.nextCodeId, CipherBytes.token st0.emKey st0.rng code, fname,
          u.username, false, st0.curDate⟩] : List CodeRow)).map (fun r =>
        if r.id == st0.nextCodeId then { r with is_used := true } else r) := by
    have h : st2.restore_codes = st1.restore_codes.map (fun r =>
        if r.id == st0.nextCodeId then { r with is_used := true } else r) := hcodes2
    rw [hcodes1'] at h
    exact h
  have htr2' : st2.trace = st0.trace ++
      [Event.markCodeUsed st0.nextCodeId, Event.extractArchive fname] := by
    have h : st2.trace = (st1.trace ++ [Event.markCodeUsed st0.nextCodeId]) ++
        [Event.extractArchive fname] := htr2
    rw [htr1', List.append_assoc] at h
    exact h
  have hback2' : st2.backups = st0.backups := hback2
  have hkey2' : st2.emKey = st0.emKey := hkey2
  have hb2 : st2.backups.contains fname = true := by rw [hback2']; exact hb
  have hfind2 : st2.restore_codes.find? (codeRowMatches u fname) = none := by
    rw [hcodes2']
    apply find?_marked_codes_none
    intro y hy
    rcases List.mem_append.mp hy with h | h
    · exact Or.inl (hprior y h)
    · right
      rw [List.mem_singleton.mp h]
  rw [restore_sysadmin_fail_nofind u fname code st2 hu hb2 hfind2,
    Prod.mk.injEq] at hres2
  obtain ⟨hr2, hst3⟩ := hres2
  subst hst3
  subst hr2
  obtain ⟨_, _, _, _, _, htr3, _, e, hlogs3, hsus3, _, _, hact3, _⟩ :=
    secure_logger_log_spec st2 u.username "Failed backup restore"
      ("Invalid code used for " ++ fname) true
  have hem : st2.em = st0.em := by
    unfold SysState.em
    rw [hkey2']
  rw [hem] at hact3
  refine ⟨rfl, rfl, htr2', ?_, rfl, htr3, ⟨e, hlogs3, hsus3, hact3⟩⟩
  rw [hcodes2']
  exact marked_codes_used st0.nextCodeId _

/-- Witness for C3: the concrete generate-restore-replay run over a
one-backup store: generation returns the code, the first restore succeeds
with the mark-used event before the extraction event, the replay fails
suspicious with no further extraction. -/
theorem c3_restore_code_single_use_witness :
    c3Gen.1 = some "deadbeef" ∧
    c3Restore1.1 = some true ∧
    c3Restore1.2.trace = restoreState.trace ++
      [Event.markCodeUsed restoreState.nextCodeId,
        Event.extractArchive "backup_1.zip"] ∧
    (∀ y ∈ c3Restore1.2.restore_codes,
      y.id = restoreState.nextCodeId → y.is_used = true) ∧
    c3Restore2.1 = some false ∧
    c3Restore2.2.trace = c3Restore1.2.trace ∧
    (∃ e : LogRow, c3Restore2.2.logs = c3Restore1.2.logs ++ [e] ∧
      e.suspicious = true ∧
      restoreState.em.decrypt e.activity = "Failed backup restore") :=
  c3_restore_code_single_use restoreState superAdminUser sysAdminUser "backup_1.zip"
    "deadbeef" rfl rfl (by decide) (by decide)
    c3Gen.1 c3Gen.2 rfl
    c3Restore1.1 c3Restore1.2 rfl
    c3Restore2.1 c3Restore2.2 rfl

/-- Witness for C6 at a concrete key, a token under a different key, a
corrupted byte string, and a non-bytes input. -/
theorem c6_decrypt_invalid_no_raise_witness :
    (EncryptionManager.isValidToken ⟨0⟩ (CipherBytes.token 1 7 "secret") = false) ∧
    (EncryptionManager.decryptPy ⟨0⟩ (PyVal.bytes (CipherBytes.token 1 7 "secret")) =
      Except.ok "") ∧
    (EncryptionManager.decryptPy ⟨0⟩ (PyVal.bytes (CipherBytes.garbage [3, 1, 4])) =
      Except.ok "") ∧
    (EncryptionManager.decryptPy ⟨0⟩ (PyVal.str "hello") = Except.error "TypeError") := by
  refine ⟨by decide, ?_, ?_, ?_⟩
  · exact (c6_decrypt_invalid_no_raise ⟨0⟩).1 (CipherBytes.token 1 7 "secret") (by decide)
  · exact (c6_decrypt_invalid_no_raise ⟨0⟩).1 (CipherBytes.garbage [3, 1, 4]) (by decide)
  · exact (c6_decrypt_invalid_no_raise ⟨0⟩).2 (PyVal.str "hello") (by intro b h; cases h)
